import Mathlib

/-!
Verification of the temporal override engine of `koishi-plugin-w-time-travel`
(`src/index.ts`) against its natural-language specification.

Shallow embedding conventions:
* A JavaScript `Date` value is represented by its epoch-millisecond timestamp
  (an `Int`); the real clock reading `Date0.now()` is passed explicitly as a
  `realNow : Int` argument wherever the source reads the real clock.
* JavaScript parsing primitives that live outside this repository are
  abstracted as oracles: `pd : String → Option Int` models
  `new Date(s).getTime()` with `none` standing for `NaN` (parse failure), and
  `pdur : String → Option Int` models the npm package `parse-duration`
  with `none` standing for its `null` result.
* Failure by `fail(message)` (a thrown `SessionError`) is modelled with
  `Except TimeTravelError`; the constructors carry the error taxonomy of the
  spec (§7), each corresponding to one `fail` call site of the source.
* The database of warp points is modelled as a `List TimeTravelWarp`.
-/

/-- The two time-travel modes (`const enum TimeTravelMode` in the source):
`Relative` offsets the real clock, `Absolute` pins it to an instant. -/
inductive TimeTravelMode where
  | Relative
  | Absolute
deriving DecidableEq, Repr

/-- `interface TimeTravelConfig { mode; param }` — an override descriptor.
For `Absolute`, `param` is an epoch-millisecond instant; for `Relative`, a
signed millisecond delta. -/
structure TimeTravelConfig where
  mode : TimeTravelMode
  param : Int
deriving DecidableEq, Repr

/-- `interface TimeTravelWarp extends TimeTravelConfig { id }`. -/
structure TimeTravelWarp extends TimeTravelConfig where
  id : String
deriving DecidableEq, Repr

/-- The error taxonomy of the spec (§7); each constructor corresponds to one
`fail(...)` call site of the source.  `Thrown` is not an engine error: it
models abnormal completion (thrown error or cancellation) of the wrapped
command itself. -/
inductive TimeTravelError where
  | InvalidMode
  | InvalidTarget
  | InvalidDelta
  | NestedRelativeNotAllowed
  | WarpNotFound
  | WarpAlreadyExists
  | Thrown
deriving DecidableEq, Repr

/-- JavaScript's `toLowerCase()` on the mode token, modelled character-wise
(the relevant tokens are ASCII). -/
def toLowerString (s : String) : String :=
  ⟨s.data.map Char.toLower⟩

/-- `parseTimeTravelMode` from the source: lower-cases the token and accepts
exactly "to" (Absolute) and "by" (Relative), failing otherwise. -/
def parseTimeTravelMode (mode : String) : Except TimeTravelError TimeTravelMode :=
  match toLowerString mode with
  | "to" => .ok .Absolute
  | "by" => .ok .Relative
  | _ => .error .InvalidMode

/-- `parseTimeTravelConfig` from the source.  `pd` models
`new Date(param).getTime()` (`none` = `NaN`), `pdur` models
`parseDuration(param)` (`none` = `null`).  A descriptor is only constructed
from a successfully parsed value. -/
def parseTimeTravelConfig (pd pdur : String → Option Int)
    (mode : TimeTravelMode) (param : String) : Except TimeTravelError TimeTravelConfig :=
  match mode with
  | .Absolute =>
    match pd param with
    | none => .error .InvalidTarget
    | some target => .ok ⟨.Absolute, target⟩
  | .Relative =>
    match pdur param with
    | none => .error .InvalidDelta
    | some delta => .ok ⟨.Relative, delta⟩

/-- The nesting-combination branch of `travel` in the source: given the
currently active override `store` (`als.getStore()`) and the newly requested
`config`, produce the config that is wrapped, or fail.  Mirrors the source:
only a `Relative` request consults the parent; Relative-under-Relative fails,
Relative-under-Absolute adds the params into an Absolute config, anything
else passes `config` through unchanged. -/
def travelConfig (store : Option TimeTravelConfig) (config : TimeTravelConfig) :
    Except TimeTravelError TimeTravelConfig :=
  match config.mode with
  | .Relative =>
    match store with
    | some parentConfig =>
      match parentConfig.mode with
      | .Relative => .error .NestedRelativeNotAllowed
      | .Absolute => .ok ⟨.Absolute, parentConfig.param + config.param⟩
    | none => .ok config
  | .Absolute => .ok config

/-- `getTravelledNow` from the source callback: for an Absolute config the
constant `param`; for a Relative config `Date0.now() + param`, where the real
clock reading at the moment of the query is the `realNow` argument. -/
def getTravelledNow (config : TimeTravelConfig) (realNow : Int) : Int :=
  match config.mode with
  | .Absolute => config.param
  | .Relative => realNow + config.param

/-- `getTravelledDate` from the source callback: `new Date0(getTravelledNow())`,
a Date carrying the travelled timestamp. -/
def getTravelledDate (config : TimeTravelConfig) (realNow : Int) : Int :=
  getTravelledNow config realNow

/-- The `construct` trap of the source Proxy: with no arguments it returns the
travelled date; with any arguments it delegates to `new Date0(...args)`,
modelled by the oracle `realConstruct`. -/
def proxyConstruct (config : TimeTravelConfig) (realConstruct : List Int → Int)
    (args : List Int) (realNow : Int) : Int :=
  if args.isEmpty then getTravelledDate config realNow
  else realConstruct args

/-- The `apply` trap of the source Proxy (calling `Date(...)` without `new`):
it ignores its arguments and returns `getTravelledDate().toString()`, the
string of the travelled date, with `dateToString` modelling `toString`. -/
def proxyApply (config : TimeTravelConfig) (dateToString : Int → String)
    (_args : List Int) (realNow : Int) : String :=
  dateToString (getTravelledDate config realNow)

/-- Result of the `get` trap: either the intercepted now-function (a function
from the real clock reading at query time to a timestamp) or a property
delegated to the real `Date`. -/
inductive GetResult (α : Type) where
  | nowFn : (Int → Int) → GetResult α
  | delegated : α → GetResult α

/-- The `get` trap of the source Proxy: property "now" is answered with
`getTravelledNow`; every other property delegates to `Date0[prop]`, modelled
by the oracle `realProps`. -/
def proxyGet {α : Type} (config : TimeTravelConfig) (realProps : String → α)
    (prop : String) : GetResult α :=
  if prop == "now" then .nowFn (getTravelledNow config)
  else .delegated (realProps prop)

/-- The time observed by a no-argument "now" query under an installed
override: with no override installed the real clock reading, otherwise the
proxy's travelled now. -/
def effectiveNow (store : Option TimeTravelConfig) (realNow : Int) : Int :=
  match store with
  | none => realNow
  | some config => getTravelledNow config realNow

/-- Modelled from the spec: `wrap` of the package `ctx-hook`
(`useGlobalCtxHook`), whose implementation is not part of this repository.
Per §4.2/§4.3 it installs `config` as the active override (swapping the
global `Date` for the proxy) for the dynamic extent of `body`, and restores
the previously installed reference when `body` completes, regardless of
normal return, thrown error, or cancellation.  `body` receives the store it
runs under and returns its outcome together with whatever store its own inner
activations left behind; `wrap` discards the latter and restores `store`. -/
def wrapRun (body : Option TimeTravelConfig →
      Except TimeTravelError Unit × Option TimeTravelConfig)
    (config : TimeTravelConfig) (store : Option TimeTravelConfig) :
    Except TimeTravelError Unit × Option TimeTravelConfig :=
  ((body (some config)).1, store)

/-- `travel` from the source: combine the requested config with the active
one (`travelConfig`); a failure there throws out of `travel` before `wrap`
is invoked, leaving the store untouched; otherwise run the wrapped command
under the combined config. -/
def travel (store : Option TimeTravelConfig) (config : TimeTravelConfig)
    (body : Option TimeTravelConfig →
      Except TimeTravelError Unit × Option TimeTravelConfig) :
    Except TimeTravelError Unit × Option TimeTravelConfig :=
  match travelConfig store config with
  | .error e => (.error e, store)
  | .ok combined => wrapRun body combined store

/-- The action of `time.travel.to <date> <command>`: parse the date as an
Absolute config (argument evaluation precedes the call, so a parse failure
aborts before `travel` runs), then travel. -/
def timeTravelToAction (pd pdur : String → Option Int)
    (store : Option TimeTravelConfig) (date : String)
    (body : Option TimeTravelConfig →
      Except TimeTravelError Unit × Option TimeTravelConfig) :
    Except TimeTravelError Unit × Option TimeTravelConfig :=
  match parseTimeTravelConfig pd pdur .Absolute date with
  | .error e => (.error e, store)
  | .ok config => travel store config body

/-- The action of `time.travel.by <delta> <command>`: parse the delta as a
Relative config, then travel. -/
def timeTravelByAction (pd pdur : String → Option Int)
    (store : Option TimeTravelConfig) (delta : String)
    (body : Option TimeTravelConfig →
      Except TimeTravelError Unit × Option TimeTravelConfig) :
    Except TimeTravelError Unit × Option TimeTravelConfig :=
  match parseTimeTravelConfig pd pdur .Relative delta with
  | .error e => (.error e, store)
  | .ok config => travel store config body

/-- The resolution step of the `time.travel.warp <id> <command>` action:
`database.get` by id; an absent warp fails with WarpNotFound. -/
def warpLookup (db : List TimeTravelWarp) (id : String) :
    Except TimeTravelError TimeTravelConfig :=
  match db.find? (fun w => w.id == id) with
  | none => .error .WarpNotFound
  | some warp => .ok warp.toTimeTravelConfig

/-- The action of `time.travel.warp <id> <command>`: resolve the warp point,
failing before any activation when it is absent, then travel with its
descriptor. -/
def timeTravelWarpAction (db : List TimeTravelWarp)
    (store : Option TimeTravelConfig) (id : String)
    (body : Option TimeTravelConfig →
      Except TimeTravelError Unit × Option TimeTravelConfig) :
    Except TimeTravelError Unit × Option TimeTravelConfig :=
  match db.find? (fun w => w.id == id) with
  | none => (.error .WarpNotFound, store)
  | some warp => travel store warp.toTimeTravelConfig body

/-- The action of `time.travel.warp.create <id> <mode> <param>`: fails with
WarpAlreadyExists when the id is present; otherwise parses mode and param
and appends the new warp record.  Returns the new database contents. -/
def warpCreateAction (pd pdur : String → Option Int) (db : List TimeTravelWarp)
    (id mode param : String) : Except TimeTravelError (List TimeTravelWarp) :=
  match db.find? (fun w => w.id == id) with
  | some _ => .error .WarpAlreadyExists
  | none =>
    match parseTimeTravelMode mode with
    | .error e => .error e
    | .ok m =>
      match parseTimeTravelConfig pd pdur m param with
      | .error e => .error e
      | .ok config => .ok (db ++ [⟨config, id⟩])

/-- The action of `time.travel.warp.delete <id>`: fails with WarpNotFound
when the id is absent; otherwise removes the record. -/
def warpDeleteAction (db : List TimeTravelWarp) (id : String) :
    Except TimeTravelError (List TimeTravelWarp) :=
  match db.find? (fun w => w.id == id) with
  | none => .error .WarpNotFound
  | some _ => .ok (db.filter (fun w => !(w.id == id)))

/-- Modelled from the spec: the per-logical-operation propagation of the
active override (§5) by `AsyncLocalStorage` (`als` of `ctx-hook`, not part of
this repository).  Each in-flight logical operation, identified by a `Nat`,
carries its own possibly-absent active override; activation in one operation
sets only that operation's slot. -/
abbrev WorldStore : Type := Nat → Option TimeTravelConfig

/-- Activation of `config` (or clearing, with `none`) in logical operation
`i`: only operation i's slot changes. -/
def setStore (w : WorldStore) (i : Nat) (c : Option TimeTravelConfig) : WorldStore :=
  fun j => if j = i then c else w j

/-- Apply a sequence of activation events, each naming the logical operation
it happens in, in order. -/
def applyEvents (events : List (Nat × Option TimeTravelConfig)) (w : WorldStore) :
    WorldStore :=
  events.foldl (fun acc e => setStore acc e.1 e.2) w

/-- A no-argument "now" query issued from within logical operation `i`:
computed from that operation's own slot. -/
def nowQueryIn (w : WorldStore) (i : Nat) (realNow : Int) : Int :=
  effectiveNow (w i) realNow

/-- C1: The nesting combination follows the §4.1 table exactly: no active
outer leaves the inner unchanged; Relative under Relative fails with
NestedRelativeNotAllowed; Relative under Absolute gives an Absolute whose
param is the sum; an Absolute inner is used unchanged under any outer. -/
theorem travelConfig_follows_nesting_table (o i : Int) (config : TimeTravelConfig) :
    travelConfig none config = .ok config ∧
    travelConfig (some ⟨.Relative, o⟩) ⟨.Relative, i⟩ =
      .error .NestedRelativeNotAllowed ∧
    travelConfig (some ⟨.Absolute, o⟩) ⟨.Relative, i⟩ = .ok ⟨.Absolute, o + i⟩ ∧
    travelConfig (some ⟨.Absolute, o⟩) ⟨.Absolute, i⟩ = .ok ⟨.Absolute, i⟩ ∧
    travelConfig (some ⟨.Relative, o⟩) ⟨.Absolute, i⟩ = .ok ⟨.Absolute, i⟩ := by
  refine ⟨?_, rfl, rfl, rfl, rfl⟩
  cases config with
  | mk mode param => cases mode <;> rfl

/-- C2: While an override is active, both no-argument "now" query paths (the
`Date.now` property and no-argument construction) return the travelled time:
for Absolute always exactly `param`, the same at every query; for Relative
the real clock reading at the moment of the query plus `param`, recomputed
fresh from the query-time reading rather than frozen. -/
theorem proxy_now_queries_return_travelled_time {α : Type} (realProps : String → α)
    (realConstruct : List Int → Int) (p d t t1 t2 : Int) :
    proxyGet ⟨.Absolute, p⟩ realProps "now" =
      .nowFn (getTravelledNow ⟨.Absolute, p⟩) ∧
    getTravelledNow ⟨.Absolute, p⟩ t1 = p ∧
    getTravelledNow ⟨.Absolute, p⟩ t2 = getTravelledNow ⟨.Absolute, p⟩ t1 ∧
    proxyConstruct ⟨.Absolute, p⟩ realConstruct [] t = p ∧
    proxyGet ⟨.Relative, d⟩ realProps "now" =
      .nowFn (getTravelledNow ⟨.Relative, d⟩) ∧
    getTravelledNow ⟨.Relative, d⟩ t1 = t1 + d ∧
    proxyConstruct ⟨.Relative, d⟩ realConstruct [] t = t + d ∧
    effectiveNow (some ⟨.Absolute, p⟩) t = p ∧
    effectiveNow (some ⟨.Relative, d⟩) t = t + d :=
  ⟨rfl, rfl, rfl, rfl, rfl, rfl, rfl, rfl, rfl⟩

/-- C4: For every activation and every body outcome (normal return, thrown
error, or cancellation — the body below is arbitrary, including any store its
own inner activations left behind), `travel` restores the previously active
store (none or an enclosing ancestor's descriptor), and a subsequent
no-argument "now" query outside an outermost activation reads the real
clock. -/
theorem travel_restores_previous_state (store : Option TimeTravelConfig)
    (config : TimeTravelConfig)
    (body : Option TimeTravelConfig →
      Except TimeTravelError Unit × Option TimeTravelConfig) (t : Int) :
    (travel store config body).2 = store ∧
    effectiveNow (travel none config body).2 t = t := by
  constructor
  · cases h : travelConfig store config <;> simp [travel, h, wrapRun]
  · cases config with
    | mk mode param => cases mode <;> rfl

/-- C7: While an override is active, constructing a moment from explicit
arguments delegates to the real clock's construction, and every property
other than "now" is delegated unchanged to the real `Date`. -/
theorem proxy_delegates_everything_but_now {α : Type} (config : TimeTravelConfig)
    (realProps : String → α) (realConstruct : List Int → Int)
    (prop : String) (args : List Int) (t : Int)
    (hprop : prop ≠ "now") (hargs : args ≠ []) :
    proxyGet config realProps prop = .delegated (realProps prop) ∧
    proxyConstruct config realConstruct args t = realConstruct args := by
  constructor
  · simp [proxyGet, hprop]
  · cases args with
    | nil => exact absurd rfl hargs
    | cons a l => rfl

/-- C7 witness at concrete inputs. -/
theorem proxy_delegates_everything_but_now_witness :
    proxyGet ⟨.Absolute, 0⟩ (fun s => s) "parse" = .delegated "parse" ∧
    proxyConstruct ⟨.Absolute, 0⟩ (fun _ => 42) [5] 0 = 42 :=
  proxy_delegates_everything_but_now ⟨.Absolute, 0⟩ (fun s => s) (fun _ => 42)
    "parse" [5] 0 (by decide) (by decide)

/-- C10: While an override is active, calling the clock as a plain function
returns the string of the travelled current time: the arguments are ignored
(the result is the same for any argument lists) and the result is the
travelled now rendered as a string, not a delegated real-clock behavior. -/
theorem proxy_apply_returns_travelled_string (config : TimeTravelConfig)
    (dateToString : Int → String) (args args2 : List Int) (t : Int) :
    proxyApply config dateToString args t =
      dateToString (getTravelledNow config t) ∧
    proxyApply config dateToString args t = proxyApply config dateToString args2 t :=
  ⟨rfl, rfl⟩

/-- C5: Parsing fails with InvalidMode exactly when the lower-cased mode
token is neither "to" nor "by" (and accepts either case-insensitively,
mapping "to" to Absolute and "by" to Relative); fails with InvalidTarget
exactly when the mode is Absolute and the date oracle rejects the param;
fails with InvalidDelta exactly when the mode is Relative and the duration
oracle rejects the param; otherwise returns a descriptor with the
corresponding mode. -/
theorem parse_failure_characterization (pd pdur : String → Option Int)
    (m s : String) :
    (parseTimeTravelMode m = .error .InvalidMode ↔
      (toLowerString m ≠ "to" ∧ toLowerString m ≠ "by")) ∧
    (toLowerString m = "to" → parseTimeTravelMode m = .ok .Absolute) ∧
    (toLowerString m = "by" → parseTimeTravelMode m = .ok .Relative) ∧
    (parseTimeTravelConfig pd pdur .Absolute s = .error .InvalidTarget ↔
      pd s = none) ∧
    (parseTimeTravelConfig pd pdur .Relative s = .error .InvalidDelta ↔
      pdur s = none) ∧
    (∀ t, pd s = some t →
      parseTimeTravelConfig pd pdur .Absolute s = .ok ⟨.Absolute, t⟩) ∧
    (∀ d, pdur s = some d →
      parseTimeTravelConfig pd pdur .Relative s = .ok ⟨.Relative, d⟩) := by
  refine ⟨?_, ?_, ?_, ?_, ?_, ?_, ?_⟩
  · unfold parseTimeTravelMode
    split <;> simp_all
  · intro h
    unfold parseTimeTravelMode
    rw [h]
    rfl
  · intro h
    unfold parseTimeTravelMode
    rw [h]
    rfl
  · cases h : pd s <;> simp [parseTimeTravelConfig, h]
  · cases h : pdur s <;> simp [parseTimeTravelConfig, h]
  · intro t ht
    simp [parseTimeTravelConfig, ht]
  · intro d hd
    simp [parseTimeTravelConfig, hd]

/-- C5 witness at concrete inputs, including case-insensitive acceptance. -/
theorem parse_failure_characterization_witness :
    parseTimeTravelMode "To" = .ok .Absolute ∧
    parseTimeTravelMode "BY" = .ok .Relative ∧
    parseTimeTravelConfig (fun _ => some 7) (fun _ => none) .Absolute "x" =
      .ok ⟨.Absolute, 7⟩ ∧
    parseTimeTravelConfig (fun _ => none) (fun _ => some 9) .Relative "y" =
      .ok ⟨.Relative, 9⟩ :=
  ⟨(parse_failure_characterization (fun _ => some 7) (fun _ => none)
      "To" "x").2.1 (by decide),
   (parse_failure_characterization (fun _ => some 7) (fun _ => none)
      "BY" "x").2.2.1 (by decide),
   (parse_failure_characterization (fun _ => some 7) (fun _ => none)
      "To" "x").2.2.2.2.2.1 7 rfl,
   (parse_failure_characterization (fun _ => none) (fun _ => some 9)
      "To" "y").2.2.2.2.2.2 9 rfl⟩

/-- C6: Every descriptor ever constructed holds validated data: a descriptor
returned by parsing carries exactly a value the corresponding oracle
successfully parsed (a failed parse — NaN target or null delta, modelled as
`none` — is rejected before any descriptor is built), and a descriptor
returned by the nesting combination carries either the inner param unchanged
or the integer sum of the outer and inner params. -/
theorem descriptor_param_always_parsed (pd pdur : String → Option Int)
    (mode : TimeTravelMode) (s : String) (cfg : TimeTravelConfig)
    (store : Option TimeTravelConfig) (inner c : TimeTravelConfig) :
    (parseTimeTravelConfig pd pdur mode s = .ok cfg →
      (mode = .Absolute ∧ pd s = some cfg.param) ∨
      (mode = .Relative ∧ pdur s = some cfg.param)) ∧
    (travelConfig store inner = .ok c →
      c.param = inner.param ∨
      ∃ parent, store = some parent ∧ c.param = parent.param + inner.param) := by
  constructor
  · intro hok
    cases mode with
    | Absolute =>
      cases h : pd s with
      | none => simp [parseTimeTravelConfig, h] at hok
      | some t =>
        left
        simp [parseTimeTravelConfig, h] at hok
        simp [← hok, h]
    | Relative =>
      cases h : pdur s with
      | none => simp [parseTimeTravelConfig, h] at hok
      | some d =>
        right
        simp [parseTimeTravelConfig, h] at hok
        simp [← hok, h]
  · intro hok
    cases inner with
    | mk imode iparam =>
      cases imode with
      | Absolute =>
        left
        simp [travelConfig] at hok
        simp [← hok]
      | Relative =>
        cases store with
        | none =>
          left
          simp [travelConfig] at hok
          simp [← hok]
        | some parent =>
          cases hp : parent.mode with
          | Relative => simp [travelConfig, hp] at hok
          | Absolute =>
            right
            refine ⟨parent, rfl, ?_⟩
            simp [travelConfig, hp] at hok
            simp [← hok]

/-- C6 witness at concrete inputs: one parsed descriptor, one combined
descriptor. -/
theorem descriptor_param_always_parsed_witness :
    ((TimeTravelMode.Absolute = .Absolute ∧ some (7:Int) = some (7:Int)) ∨
      (TimeTravelMode.Absolute = .Relative ∧ (none : Option Int) = some 7)) ∧
    ((5:Int) = 3 ∨
      ∃ parent, (some ⟨.Absolute, 2⟩ : Option TimeTravelConfig) = some parent ∧
        (5:Int) = parent.param + 3) :=
  ⟨(descriptor_param_always_parsed (fun _ => some 7) (fun _ => none) .Absolute "x"
      ⟨.Absolute, 7⟩ none ⟨.Absolute, 0⟩ ⟨.Absolute, 0⟩).1 rfl,
   (descriptor_param_always_parsed (fun _ => some 7) (fun _ => none) .Absolute "x"
      ⟨.Absolute, 7⟩ (some ⟨.Absolute, 2⟩) ⟨.Relative, 3⟩ ⟨.Absolute, 5⟩).2 rfl⟩

/-- C3: Every core error aborts the requested operation before any override
is activated: an unparseable target or delta (and, for warp creation, an
invalid mode) fails the action with the store untouched and the wrapped
command never executed (the result is the same for every body); an absent
warp fails likewise; and nesting a Relative override inside a Relative one
fails with NestedRelativeNotAllowed for every body, leaves the outer
Relative override in place, and the outer override still computes travelled
time afterward. -/
theorem errors_abort_before_activation (pd pdur : String → Option Int)
    (db : List TimeTravelWarp) (store : Option TimeTravelConfig)
    (date delta id mo pa : String) (d1 d2 t : Int)
    (body : Option TimeTravelConfig →
      Except TimeTravelError Unit × Option TimeTravelConfig) :
    (pd date = none →
      timeTravelToAction pd pdur store date body = (.error .InvalidTarget, store)) ∧
    (pdur delta = none →
      timeTravelByAction pd pdur store delta body = (.error .InvalidDelta, store)) ∧
    (db.find? (fun w => w.id == id) = none →
      timeTravelWarpAction db store id body = (.error .WarpNotFound, store)) ∧
    (db.find? (fun w => w.id == id) = none →
      parseTimeTravelMode mo = .error .InvalidMode →
      warpCreateAction pd pdur db id mo pa = .error .InvalidMode) ∧
    (travel (some ⟨.Relative, d1⟩) ⟨.Relative, d2⟩ body =
      (.error .NestedRelativeNotAllowed, some ⟨.Relative, d1⟩)) ∧
    effectiveNow (some ⟨.Relative, d1⟩) t = t + d1 := by
  refine ⟨?_, ?_, ?_, ?_, rfl, rfl⟩
  · intro h
    simp [timeTravelToAction, parseTimeTravelConfig, h]
  · intro h
    simp [timeTravelByAction, parseTimeTravelConfig, h]
  · intro h
    simp [timeTravelWarpAction, h]
  · intro h hm
    simp [warpCreateAction, h, hm]

/-- C3 witness at concrete inputs: failing parses, an absent warp, an invalid
mode, and a Relative-under-Relative attempt, each aborting with the store
unchanged. -/
theorem errors_abort_before_activation_witness :
    timeTravelToAction (fun _ => none) (fun _ => none) none "x"
      (fun s => (.ok (), s)) = (.error .InvalidTarget, none) ∧
    timeTravelByAction (fun _ => none) (fun _ => none) none "y"
      (fun s => (.ok (), s)) = (.error .InvalidDelta, none) ∧
    timeTravelWarpAction [] none "a" (fun s => (.ok (), s)) =
      (.error .WarpNotFound, none) ∧
    warpCreateAction (fun _ => none) (fun _ => none) [] "a" "q" "1h" =
      .error .InvalidMode ∧
    travel (some ⟨.Relative, 3⟩) ⟨.Relative, 4⟩ (fun s => (.ok (), s)) =
      (.error .NestedRelativeNotAllowed, some ⟨.Relative, 3⟩) :=
  ⟨(errors_abort_before_activation (fun _ => none) (fun _ => none) [] none
      "x" "y" "a" "q" "1h" 3 4 0 (fun s => (.ok (), s))).1 rfl,
   (errors_abort_before_activation (fun _ => none) (fun _ => none) [] none
      "x" "y" "a" "q" "1h" 3 4 0 (fun s => (.ok (), s))).2.1 rfl,
   (errors_abort_before_activation (fun _ => none) (fun _ => none) [] none
      "x" "y" "a" "q" "1h" 3 4 0 (fun s => (.ok (), s))).2.2.1 rfl,
   (errors_abort_before_activation (fun _ => none) (fun _ => none) [] none
      "x" "y" "a" "q" "1h" 3 4 0 (fun s => (.ok (), s))).2.2.2.1 rfl (by rfl),
   (errors_abort_before_activation (fun _ => none) (fun _ => none) [] none
      "x" "y" "a" "q" "1h" 3 4 0 (fun s => (.ok (), s))).2.2.2.2.1⟩

/-- C8: Warp points round-trip through the registry and obey the lifecycle:
creating warp "a" with mode "by" and param "1h" (3600000 ms per the duration
oracle) stores the Relative-3600000 descriptor, which a lookup then returns;
creation fails with WarpAlreadyExists whenever the id is present; deletion
fails with WarpNotFound whenever the id is absent; deleting "a" empties the
registry, after which looking "a" up fails with WarpNotFound. -/
theorem warp_lifecycle_roundtrip (pd pdur : String → Option Int)
    (db : List TimeTravelWarp) (id m p : String) (w0 : TimeTravelWarp)
    (h1h : pdur "1h" = some 3600000) :
    warpCreateAction pd pdur [] "a" "by" "1h" =
      .ok [⟨⟨.Relative, 3600000⟩, "a"⟩] ∧
    warpLookup [⟨⟨.Relative, 3600000⟩, "a"⟩] "a" = .ok ⟨.Relative, 3600000⟩ ∧
    (db.find? (fun w => w.id == id) = some w0 →
      warpCreateAction pd pdur db id m p = .error .WarpAlreadyExists) ∧
    (db.find? (fun w => w.id == id) = none →
      warpDeleteAction db id = .error .WarpNotFound) ∧
    warpDeleteAction [⟨⟨.Relative, 3600000⟩, "a"⟩] "a" = .ok [] ∧
    warpLookup [] "a" = .error .WarpNotFound := by
  refine ⟨?_, rfl, ?_, ?_, rfl, rfl⟩
  · simp [warpCreateAction, parseTimeTravelMode, parseTimeTravelConfig, h1h]
    rfl
  · intro h
    simp [warpCreateAction, h]
  · intro h
    simp [warpDeleteAction, h]

/-- C8 witness: the concrete round trip with a duration oracle sending "1h"
to 3600000, plus the occupied-create and absent-delete failures. -/
theorem warp_lifecycle_roundtrip_witness :
    warpCreateAction (fun _ => none)
      (fun s => if s == "1h" then some 3600000 else none) [] "a" "by" "1h" =
      .ok [⟨⟨.Relative, 3600000⟩, "a"⟩] ∧
    warpCreateAction (fun _ => none)
      (fun s => if s == "1h" then some 3600000 else none)
      [⟨⟨.Relative, 3600000⟩, "a"⟩] "a" "by" "1h" = .error .WarpAlreadyExists ∧
    warpDeleteAction ([] : List TimeTravelWarp) "a" = .error .WarpNotFound :=
  ⟨(warp_lifecycle_roundtrip (fun _ => none)
      (fun s => if s == "1h" then some 3600000 else none)
      [⟨⟨.Relative, 3600000⟩, "a"⟩] "a" "by" "1h" ⟨⟨.Relative, 3600000⟩, "a"⟩
      (by rfl)).1,
   (warp_lifecycle_roundtrip (fun _ => none)
      (fun s => if s == "1h" then some 3600000 else none)
      [⟨⟨.Relative, 3600000⟩, "a"⟩] "a" "by" "1h" ⟨⟨.Relative, 3600000⟩, "a"⟩
      (by rfl)).2.2.1 (by rfl),
   (warp_lifecycle_roundtrip (fun _ => none)
      (fun s => if s == "1h" then some 3600000 else none)
      ([] : List TimeTravelWarp) "a" "by" "1h" ⟨⟨.Relative, 3600000⟩, "a"⟩
      (by rfl)).2.2.2.1 (by rfl)⟩

/-- C9: The active override is carried per logical operation: no sequence of
activation events belonging to other operations changes what a "now" query
issued from within operation i observes, and in particular when two
concurrent operations activate different descriptors, operation i's query is
computed from its own descriptor alone. -/
theorem concurrent_activations_isolated (w : WorldStore)
    (events : List (Nat × Option TimeTravelConfig)) (i j : Nat)
    (c1 c2 : TimeTravelConfig) (t : Int)
    (hev : ∀ e ∈ events, e.1 ≠ i) (hij : j ≠ i) :
    nowQueryIn (applyEvents events w) i t = nowQueryIn w i t ∧
    nowQueryIn (setStore (setStore w i (some c1)) j (some c2)) i t =
      getTravelledNow c1 t := by
  constructor
  · induction events generalizing w with
    | nil => rfl
    | cons e es ih =>
      have he : e.1 ≠ i := hev e (List.mem_cons_self e es)
      have hstep : setStore w e.1 e.2 i = w i := by
        simp [setStore, Ne.symm he]
      have hes : ∀ e2 ∈ es, e2.1 ≠ i := fun e2 h2 => hev e2 (List.mem_cons_of_mem e h2)
      calc nowQueryIn (applyEvents (e :: es) w) i t
          = nowQueryIn (applyEvents es (setStore w e.1 e.2)) i t := rfl
        _ = nowQueryIn (setStore w e.1 e.2) i t := ih (setStore w e.1 e.2) hes
        _ = nowQueryIn w i t := by simp [nowQueryIn, hstep]
  · simp [nowQueryIn, setStore, Ne.symm hij, effectiveNow]

/-- C9 witness: a concrete interleaving where operation 1 activates a
Relative descriptor while operation 0 queries, and where operations 0 and 1
hold different descriptors simultaneously. -/
theorem concurrent_activations_isolated_witness :
    nowQueryIn (applyEvents [(1, some ⟨.Relative, 5⟩)] (fun _ => none)) 0 3 =
      nowQueryIn (fun _ => none) 0 3 ∧
    nowQueryIn (setStore (setStore (fun _ => none) 0 (some ⟨.Absolute, 7⟩)) 1
      (some ⟨.Relative, 5⟩)) 0 3 = getTravelledNow ⟨.Absolute, 7⟩ 3 :=
  concurrent_activations_isolated (fun _ => none) [(1, some ⟨.Relative, 5⟩)]
    0 1 ⟨.Absolute, 7⟩ ⟨.Relative, 5⟩ 3 (by decide) (by decide)
